import Mathlib

/-!
Shallow embedding of the commission calculation engine
(`src/services/calculator.ts`) of the comp-tracker repository.

Modelling conventions:
- JavaScript numbers are modelled as `ℚ` (the claims under scrutiny are exact
  decimal/rational computations).
- A JS value that may be `Infinity` is modelled as `Option ℚ`, with `none`
  standing for `+Infinity` (the only infinity the code produces, via
  `tier.Attainment_Ceiling__c ? … : Infinity` and `… || Infinity`).
- The JS falsy test `x ? a : b` / `x || d` on a number field is modelled
  explicitly: a present value `0` is falsy and selects the default, exactly as
  in the source.
- `deal.CloseDate` is an ISO date string in the source, used only through
  `new Date(s).getTime()` comparisons; it is modelled as the parsed timestamp,
  an integer `ℤ`.
- `Array.prototype.sort` is stable (ES2019); it is modelled by
  `List.insertionSort`, which inserts each element before the first
  strictly-greater one and therefore realises the same stable ascending order.
- Structure fields keep the Salesforce field names used by the source; TS
  fields the engine never reads (`AccountId`, `StageName`, `Comp_Plan__c`,
  `Order__c`, …) are omitted from the model.
-/

/-- The fields of the TS `PlanTier` interface that the calculation engine
reads: `Name`, `Attainment_Floor__c` (percentage), `Attainment_Ceiling__c`
(optional percentage), `Commission_Rate__c` (percentage). `Id` is kept for
record identity. -/
structure PlanTier where
  Id : String
  Name : String
  Attainment_Floor__c : ℚ
  Attainment_Ceiling__c : Option ℚ
  Commission_Rate__c : ℚ
deriving DecidableEq, Repr

/-- The fields of the TS `SalesforceOpportunity` interface that the engine
reads. `CloseDate` is modelled as the parsed timestamp (see header). -/
structure SalesforceOpportunity where
  Id : String
  Name : String
  Amount : ℚ
  CloseDate : ℤ
deriving DecidableEq, Repr

/-- TS `TierBreakdown` record. -/
structure TierBreakdown where
  tierName : String
  bookingsInTier : ℚ
  rateApplied : ℚ
  commissionAmount : ℚ
deriving DecidableEq, Repr

/-- TS `CommissionCalculation` record. -/
structure CommissionCalculation where
  grossCommission : ℚ
  tierBreakdown : List TierBreakdown
  attainmentPercent : ℚ
deriving DecidableEq, Repr

/-- TS `DealCommission` record (exported interface of the deal-attribution
calculator). -/
structure DealCommission where
  opportunityId : String
  opportunityName : String
  dealAmount : ℚ
  commissionRate : ℚ
  commissionAmount : ℚ
  tierApplied : String
  attainmentAtDeal : ℚ
  runningBookings : ℚ
deriving DecidableEq, Repr

/-- Tier comparison used by both calculators:
`(a, b) => (a.Attainment_Floor__c || 0) - (b.Attainment_Floor__c || 0)`.
On numbers, `x || 0` is the identity (`0 || 0 = 0`), so this orders by floor. -/
def tierLE (a b : PlanTier) : Prop :=
  a.Attainment_Floor__c ≤ b.Attainment_Floor__c

instance : DecidableRel tierLE := fun a b =>
  inferInstanceAs (Decidable (a.Attainment_Floor__c ≤ b.Attainment_Floor__c))

instance : IsTotal PlanTier tierLE :=
  ⟨fun a b => le_total a.Attainment_Floor__c b.Attainment_Floor__c⟩

instance : IsTrans PlanTier tierLE := ⟨fun _ _ _ => le_trans⟩

/-- Deal comparison used by the attribution calculator:
`(a, b) => new Date(a.CloseDate).getTime() - new Date(b.CloseDate).getTime()`. -/
def dealLE (a b : SalesforceOpportunity) : Prop :=
  a.CloseDate ≤ b.CloseDate

instance : DecidableRel dealLE := fun a b =>
  inferInstanceAs (Decidable (a.CloseDate ≤ b.CloseDate))

instance : IsTotal SalesforceOpportunity dealLE :=
  ⟨fun a b => le_total a.CloseDate b.CloseDate⟩

instance : IsTrans SalesforceOpportunity dealLE := ⟨fun _ _ _ => le_trans⟩

/-- `[...tiers].sort((a, b) => (a.Attainment_Floor__c || 0) - (b.Attainment_Floor__c || 0))`:
stable ascending sort by floor. -/
def sortTiersByFloor (tiers : List PlanTier) : List PlanTier :=
  List.insertionSort tierLE tiers

/-- `[...deals].sort((a, b) => new Date(a.CloseDate).getTime() - new Date(b.CloseDate).getTime())`:
stable ascending sort by close date. -/
def sortDealsByCloseDate (deals : List SalesforceOpportunity) : List SalesforceOpportunity :=
  List.insertionSort dealLE deals

/-- Model of the two-line idiom `const sorted = [...arr].sort(cmp)`: the spread
`[...arr]` allocates a fresh copy, `sort` mutates and returns that copy, so the
caller's array keeps its original contents. The first component is the content
of the caller's array after the statement, the second the value bound to the
sorted name. (Had the source written `arr.sort(cmp)` instead, both components
would be the sorted list.) -/
def copyThenSort {α : Type} (sortFn : List α → List α) (arr : List α) :
    List α × List α :=
  (arr, sortFn arr)

/-- The per-tier ceiling amount computed inside `calculateTieredCommission`:
`tierCeiling = tier.Attainment_Ceiling__c ? tier.Attainment_Ceiling__c / 100 : Infinity`
followed by
`tierCeilingAmount = tierCeiling === Infinity ? Infinity : tierCeiling * quota`.
A missing ceiling — and, by the falsy test, a ceiling equal to `0` — yields
`Infinity` (modelled as `none`). -/
def tierCeilingAmount (quota : ℚ) (tier : PlanTier) : Option ℚ :=
  match tier.Attainment_Ceiling__c with
  | some c => if c = 0 then none else some (c / 100 * quota)
  | none => none

/-- Loop body of `calculateTieredCommission`: fold state is
`(totalCommission, breakdown)`. `x || 0` on the floor and rate fields is the
identity on numbers and is dropped. -/
def tieredStep (bookings quota : ℚ) (acc : ℚ × List TierBreakdown)
    (tier : PlanTier) : ℚ × List TierBreakdown :=
  let tierFloor := tier.Attainment_Floor__c / 100
  let tierRate := tier.Commission_Rate__c / 100
  let tierFloorAmount := tierFloor * quota
  let ceilingAmount := tierCeilingAmount quota tier
  let bookingsAboveFloor := max (bookings - tierFloorAmount) 0
  -- `tierRange = tierCeilingAmount - tierFloorAmount` (Infinity when uncapped);
  -- `bookingsInTier = min(bookingsAboveFloor, tierRange)`, and
  -- `min x Infinity = x`.
  let bookingsInTier :=
    match ceilingAmount with
    | none => bookingsAboveFloor
    | some ca => min bookingsAboveFloor (ca - tierFloorAmount)
  if 0 < bookingsInTier then
    let tierCommission := bookingsInTier * tierRate
    let tierName :=
      if tier.Name = "" then
        -- `tier.Name || ...` template fallback; JS number formatting is
        -- approximated by `toString` on `ℚ` (no claim exercises this string).
        toString (tierFloor * 100) ++ "% - " ++
          (match tierCeilingAmount 1 tier with
           | none => "Uncapped"
           | some c100 => toString (c100 * 100) ++ "%")
      else tier.Name
    (acc.1 + tierCommission,
     acc.2 ++ [{ tierName := tierName, bookingsInTier := bookingsInTier,
                 rateApplied := tierRate, commissionAmount := tierCommission }])
  else acc

/-- `calculateTieredCommission(bookings, quota, tiers)` from
`src/services/calculator.ts`. -/
def calculateTieredCommission (bookings quota : ℚ) (tiers : List PlanTier) :
    CommissionCalculation :=
  if quota ≤ 0 then
    { grossCommission := 0, tierBreakdown := [], attainmentPercent := 0 }
  else
    let attainment := bookings / quota
    let sortedTiers := sortTiersByFloor tiers
    let res := sortedTiers.foldl (tieredStep bookings quota) (0, [])
    { grossCommission := res.1, tierBreakdown := res.2,
      attainmentPercent := attainment * 100 }

/-- The effective ceiling used by `findTierForAttainment`:
`const ceiling = tier.Attainment_Ceiling__c || Infinity`. A missing ceiling —
and, by the falsy test, a ceiling equal to `0` — yields `Infinity` (`none`). -/
def effCeiling (tier : PlanTier) : Option ℚ :=
  match tier.Attainment_Ceiling__c with
  | some c => if c = 0 then none else some c
  | none => none

/-- `attainmentPercent < ceiling` with `ceiling` possibly `Infinity`. -/
def belowCeiling (attainmentPercent : ℚ) (tier : PlanTier) : Bool :=
  match effCeiling tier with
  | none => true
  | some c => decide (attainmentPercent < c)

/-- Exact containment `floor ≤ attainment < ceiling` tested by the first
branch of the loop in `findTierForAttainment`. -/
def exactContains (attainmentPercent : ℚ) (tier : PlanTier) : Prop :=
  tier.Attainment_Floor__c ≤ attainmentPercent ∧ belowCeiling attainmentPercent tier = true

instance (a : ℚ) (t : PlanTier) : Decidable (exactContains a t) :=
  inferInstanceAs (Decidable (_ ∧ _))

/-- The scanning loop of `findTierForAttainment`, with the mutable
`applicableTier` threaded as the `best` accumulator. Per iteration the source
tests `attainmentPercent >= floor && attainmentPercent < ceiling` (break with
this tier), then `attainmentPercent >= floor` (tentatively record this tier and
continue); when the floor is above the attainment neither branch fires. -/
def findTierAux (attainmentPercent : ℚ) (best : Option PlanTier) :
    List PlanTier → Option PlanTier
  | [] => best
  | tier :: rest =>
    if tier.Attainment_Floor__c ≤ attainmentPercent then
      if belowCeiling attainmentPercent tier then some tier
      else findTierAux attainmentPercent (some tier) rest
    else findTierAux attainmentPercent best rest

/-- `findTierForAttainment(attainmentPercent, tiers)` from
`src/services/calculator.ts`. -/
def findTierForAttainment (attainmentPercent : ℚ) (tiers : List PlanTier) :
    Option PlanTier :=
  findTierAux attainmentPercent none tiers

/-- Body of the per-deal loop of `calculateDealByDealCommission`: given the
running total before this deal, build the emitted record. `deal.Amount || 0`
is the identity on numbers and is dropped; `applicableTier?.Name || 'Base'`
falls back to `"Base"` when no tier matched (or its name is the empty string). -/
def mkDealCommission (quota : ℚ) (sortedTiers : List PlanTier) (running : ℚ)
    (deal : SalesforceOpportunity) : DealCommission :=
  let dealAmount := deal.Amount
  let runningBookings := running + dealAmount
  let attainmentAtDeal := runningBookings / quota * 100
  let applicableTier := findTierForAttainment attainmentAtDeal sortedTiers
  let commissionRate :=
    match applicableTier with
    | some t => t.Commission_Rate__c / 100
    | none => 0
  { opportunityId := deal.Id
    opportunityName := deal.Name
    dealAmount := dealAmount
    commissionRate := commissionRate
    commissionAmount := dealAmount * commissionRate
    tierApplied :=
      match applicableTier with
      | some t => if t.Name = "" then "Base" else t.Name
      | none => "Base"
    attainmentAtDeal := attainmentAtDeal
    runningBookings := runningBookings }

/-- The per-deal loop of `calculateDealByDealCommission` over the close-date
sorted deals, threading `runningBookings`. -/
def dealLoop (quota : ℚ) (sortedTiers : List PlanTier) (running : ℚ) :
    List SalesforceOpportunity → List DealCommission
  | [] => []
  | deal :: rest =>
    let record := mkDealCommission quota sortedTiers running deal
    record :: dealLoop quota sortedTiers record.runningBookings rest

/-- `calculateDealByDealCommission(deals, quota, tiers)` from
`src/services/calculator.ts`. -/
def calculateDealByDealCommission (deals : List SalesforceOpportunity)
    (quota : ℚ) (tiers : List PlanTier) : List DealCommission :=
  if quota ≤ 0 ∨ deals = [] then []
  else
    dealLoop quota (sortTiersByFloor tiers) 0 (sortDealsByCloseDate deals)

/-- `calculateTieredCommission` with the caller's array tracked: the engine's
first statement is `const sortedTiers = [...tiers].sort(…)` (`copyThenSort`),
so the second component is the content of the caller's tier array after the
call. -/
def calculateTieredCommissionTracked (bookings quota : ℚ)
    (tiers : List PlanTier) : CommissionCalculation × List PlanTier :=
  if quota ≤ 0 then
    ({ grossCommission := 0, tierBreakdown := [], attainmentPercent := 0 }, tiers)
  else
    let attainment := bookings / quota
    let spread := copyThenSort sortTiersByFloor tiers
    let sortedTiers := spread.2
    let res := sortedTiers.foldl (tieredStep bookings quota) (0, [])
    ({ grossCommission := res.1, tierBreakdown := res.2,
       attainmentPercent := attainment * 100 }, spread.1)

/-- `calculateDealByDealCommission` with the caller's arrays tracked:
`const sortedDeals = [...deals].sort(…)` and `const sortedTiers = [...tiers].sort(…)`
both sort spread copies; the second and third components are the contents of
the caller's deal and tier arrays after the call. -/
def calculateDealByDealCommissionTracked (deals : List SalesforceOpportunity)
    (quota : ℚ) (tiers : List PlanTier) :
    List DealCommission × List SalesforceOpportunity × List PlanTier :=
  if quota ≤ 0 ∨ deals = [] then ([], deals, tiers)
  else
    let spreadDeals := copyThenSort sortDealsByCloseDate deals
    let spreadTiers := copyThenSort sortTiersByFloor tiers
    (dealLoop quota spreadTiers.2 0 spreadDeals.2, spreadDeals.1, spreadTiers.1)

/-! Concrete fixtures used by worked examples and witnesses. -/

/-- The three-tier schedule of the worked example: 0–100% at 10%. -/
def tierOne : PlanTier :=
  { Id := "t1", Name := "Tier 1", Attainment_Floor__c := 0,
    Attainment_Ceiling__c := some 100, Commission_Rate__c := 10 }

/-- Worked-example tier: 100–125% at 15%. -/
def tierTwo : PlanTier :=
  { Id := "t2", Name := "Tier 2", Attainment_Floor__c := 100,
    Attainment_Ceiling__c := some 125, Commission_Rate__c := 15 }

/-- Worked-example tier: 125% and above (uncapped) at 20%. -/
def tierThree : PlanTier :=
  { Id := "t3", Name := "Tier 3", Attainment_Floor__c := 125,
    Attainment_Ceiling__c := none, Commission_Rate__c := 20 }

/-- A tier whose ceiling field is present but equal to `0`. -/
def zeroCeilTier : PlanTier :=
  { Id := "tz", Name := "Zero Ceiling", Attainment_Floor__c := 0,
    Attainment_Ceiling__c := some 0, Commission_Rate__c := 8 }

/-- A tier capped at 50%. -/
def cap50Tier : PlanTier :=
  { Id := "tc", Name := "Capped", Attainment_Floor__c := 0,
    Attainment_Ceiling__c := some 50, Commission_Rate__c := 5 }

/-- A tier over [60, 70). -/
def midTier : PlanTier :=
  { Id := "tm", Name := "Mid", Attainment_Floor__c := 60,
    Attainment_Ceiling__c := some 70, Commission_Rate__c := 9 }

/-- A single flat tier {floor 0, ceiling unbounded, rate R}. -/
def flatTier (id nm : String) (R : ℚ) : PlanTier :=
  { Id := id, Name := nm, Attainment_Floor__c := 0,
    Attainment_Ceiling__c := none, Commission_Rate__c := R }

/-- Sample deal closing at time 300. -/
def dealA : SalesforceOpportunity :=
  { Id := "o1", Name := "Deal A", Amount := 40, CloseDate := 300 }

/-- Sample deal closing at time 100. -/
def dealB : SalesforceOpportunity :=
  { Id := "o2", Name := "Deal B", Amount := 25, CloseDate := 100 }

/-- Sample deal closing at time 300 (ties with `dealA`). -/
def dealC : SalesforceOpportunity :=
  { Id := "o3", Name := "Deal C", Amount := 35, CloseDate := 300 }

/-- A refund: a deal with a negative amount. It drives the running attainment
below every tier floor, reaching the no-tier-matches path. -/
def refundDeal : SalesforceOpportunity :=
  { Id := "o4", Name := "Refund", Amount := -30, CloseDate := 200 }

/-! Helper lemmas. -/

/-- When no tier's floor is at or below the attainment, the scan of
`findTierForAttainment` never updates its accumulator. -/
theorem findTierAux_of_no_floor (att : ℚ) :
    ∀ (tiers : List PlanTier) (best : Option PlanTier),
      (∀ t ∈ tiers, ¬ t.Attainment_Floor__c ≤ att) →
      findTierAux att best tiers = best := by
  intro tiers
  induction tiers with
  | nil => intro best _; rfl
  | cons tier rest ih =>
    intro best h
    have hf : ¬ tier.Attainment_Floor__c ≤ att := h tier (List.mem_cons_self _ _)
    rw [findTierAux, if_neg hf]
    exact ih best fun t ht => h t (List.mem_cons_of_mem _ ht)

/-- Invariant of the scanning loop of `findTierForAttainment` on a
floor-sorted tier list, in the absence of an exact containment: the result is
the accumulator or a scanned tier, its floor is at or below the attainment,
and its floor dominates every scanned floor that is at or below the
attainment. -/
theorem findTierAux_spec (att : ℚ) :
    ∀ (tiers : List PlanTier) (best : Option PlanTier),
      List.Pairwise tierLE tiers →
      (∀ t ∈ tiers, ¬ exactContains att t) →
      (∀ b, best = some b → b.Attainment_Floor__c ≤ att) →
      (match findTierAux att best tiers with
       | none => best = none ∧ ∀ t ∈ tiers, ¬ t.Attainment_Floor__c ≤ att
       | some r => (best = some r ∨ r ∈ tiers) ∧ r.Attainment_Floor__c ≤ att ∧
           ∀ t ∈ tiers, t.Attainment_Floor__c ≤ att →
             t.Attainment_Floor__c ≤ r.Attainment_Floor__c) := by
  intro tiers
  induction tiers with
  | nil =>
    intro best _ _ hbest
    cases best with
    | none => exact ⟨rfl, by simp⟩
    | some b => exact ⟨Or.inl rfl, hbest b rfl, by simp⟩
  | cons tier rest ih =>
    intro best hs hne hbest
    have hsrest : List.Pairwise tierLE rest := hs.tail
    have hdom : ∀ t ∈ rest, tierLE tier t := fun t ht => (List.pairwise_cons.mp hs).1 t ht
    have hnerest : ∀ t ∈ rest, ¬ exactContains att t :=
      fun t ht => hne t (List.mem_cons_of_mem _ ht)
    by_cases hf : tier.Attainment_Floor__c ≤ att
    · have hbc : belowCeiling att tier = false := by
        have h1 := hne tier (List.mem_cons_self _ _)
        simp only [exactContains, not_and] at h1
        exact Bool.not_eq_true _ ▸ h1 hf
      rw [findTierAux, if_pos hf, hbc, if_neg (by simp)]
      have hres := ih (some tier) hsrest hnerest (by rintro b ⟨rfl⟩; exact hf)
      revert hres
      cases hr : findTierAux att (some tier) rest with
      | none => rintro ⟨h1, _⟩; cases h1
      | some r =>
        rintro ⟨h1, h2, h3⟩
        refine ⟨Or.inr ?_, h2, ?_⟩
        · rcases h1 with h1 | h1
          · exact (Option.some.injEq _ _ ▸ h1 : tier = r) ▸ List.mem_cons_self _ _
          · exact List.mem_cons_of_mem _ h1
        · intro t ht hta
          rcases List.mem_cons.mp ht with rfl | ht
          · rcases h1 with h1 | h1
            · exact (Option.some.inj h1) ▸ le_refl _
            · exact hdom r h1
          · exact h3 t ht hta
    · rw [findTierAux, if_neg hf]
      have hres := ih best hsrest hnerest hbest
      revert hres
      cases hr : findTierAux att best rest with
      | none =>
        rintro ⟨h1, h2⟩
        refine ⟨h1, ?_⟩
        intro t ht
        rcases List.mem_cons.mp ht with rfl | ht
        · exact hf
        · exact h2 t ht
      | some r =>
        rintro ⟨h1, h2, h3⟩
        refine ⟨?_, h2, ?_⟩
        · rcases h1 with h1 | h1
          · exact Or.inl h1
          · exact Or.inr (List.mem_cons_of_mem _ h1)
        · intro t ht hta
          rcases List.mem_cons.mp ht with rfl | ht
          · exact absurd hta hf
          · exact h3 t ht hta

/-- Inserting a deal with `orderedInsert dealLE` preserves the subsequence of
deals closing at any fixed time, up to prepending the inserted deal when it
closes at that time: every deal skipped over closes strictly later than the
inserted one. -/
theorem filter_closeDate_orderedInsert (a : SalesforceOpportunity)
    (l : List SalesforceOpportunity) (ts : ℤ) :
    (List.orderedInsert dealLE a l).filter (fun d => decide (d.CloseDate = ts)) =
      if a.CloseDate = ts then
        a :: l.filter (fun d => decide (d.CloseDate = ts))
      else l.filter (fun d => decide (d.CloseDate = ts)) := by
  induction l with
  | nil =>
    by_cases hat : a.CloseDate = ts <;> simp [List.orderedInsert, List.filter, hat]
  | cons b l ih =>
    rw [List.orderedInsert]
    by_cases hab : dealLE a b
    · rw [if_pos hab, List.filter_cons, List.filter_cons]
      by_cases hat : a.CloseDate = ts <;> simp [hat]
    · rw [if_neg hab, List.filter_cons, List.filter_cons, ih]
      have hba : b.CloseDate < a.CloseDate := lt_of_not_le hab
      by_cases hat : a.CloseDate = ts
      · have hbt : ¬ b.CloseDate = ts := by omega
        simp [hat, hbt]
      · by_cases hbt : b.CloseDate = ts <;> simp [hat, hbt]

/-- The stable sort by close date preserves, for every fixed close time, the
original relative order of the deals closing at that time. -/
theorem filter_closeDate_insertionSort (l : List SalesforceOpportunity) (ts : ℤ) :
    (List.insertionSort dealLE l).filter (fun d => decide (d.CloseDate = ts)) =
      l.filter (fun d => decide (d.CloseDate = ts)) := by
  induction l with
  | nil => rfl
  | cons a l ih =>
    rw [List.insertionSort, filter_closeDate_orderedInsert, List.filter_cons]
    by_cases hat : a.CloseDate = ts <;> simp [hat, ih]

/-- Each record emitted by the per-deal loop carries the `Id` of the deal it
was built from, in order. -/
theorem dealLoop_map_opportunityId (quota : ℚ) (sortedTiers : List PlanTier) :
    ∀ (ds : List SalesforceOpportunity) (running : ℚ),
      (dealLoop quota sortedTiers running ds).map (fun r => r.opportunityId) =
        ds.map (fun d => d.Id) := by
  intro ds
  induction ds with
  | nil => intro running; rfl
  | cons d ds ih =>
    intro running
    rw [dealLoop]
    simp only [List.map_cons, mkDealCommission]
    exact congrArg _ (ih _)

/-- The running totals emitted by the per-deal loop form a nondecreasing chain
starting from the initial running total, provided all deal amounts are
nonnegative. -/
theorem dealLoop_running_chain (quota : ℚ) (sortedTiers : List PlanTier) :
    ∀ (ds : List SalesforceOpportunity) (running : ℚ),
      (∀ d ∈ ds, 0 ≤ d.Amount) →
      List.Chain' (· ≤ ·)
        (running :: (dealLoop quota sortedTiers running ds).map
          (fun r => r.runningBookings)) := by
  intro ds
  induction ds with
  | nil => intro running _; simp [dealLoop]
  | cons d ds ih =>
    intro running h
    rw [dealLoop]
    simp only [List.map_cons]
    have hrec : (mkDealCommission quota sortedTiers running d).runningBookings =
        running + d.Amount := by
      simp [mkDealCommission]
    rw [hrec, List.chain'_cons]
    refine ⟨le_add_of_nonneg_right (h d (List.mem_cons_self _ _)), ?_⟩
    exact ih (running + d.Amount) fun t ht => h t (List.mem_cons_of_mem _ ht)

/-! Claim theorems. -/

/-- C1: for bookings 150000, quota 100000, and the tiers 0–100% at 10%,
100–125% at 15%, 125%+ (uncapped) at 20%, the aggregate calculator returns
attainment 150%, the breakdown entries (100000, 10000), (25000, 3750),
(25000, 5000) in ascending-floor order, and gross commission 18750. -/
theorem worked_example_aggregate :
    calculateTieredCommission 150000 100000 [tierOne, tierTwo, tierThree] =
      { grossCommission := 18750,
        tierBreakdown :=
          [{ tierName := "Tier 1", bookingsInTier := 100000,
             rateApplied := 1 / 10, commissionAmount := 10000 },
           { tierName := "Tier 2", bookingsInTier := 25000,
             rateApplied := 3 / 20, commissionAmount := 3750 },
           { tierName := "Tier 3", bookingsInTier := 25000,
             rateApplied := 1 / 5, commissionAmount := 5000 }],
        attainmentPercent := 150 } := by
  norm_num [calculateTieredCommission, sortTiersByFloor, List.insertionSort,
    List.orderedInsert, tierLE, tieredStep, tierCeilingAmount, tierOne,
    tierTwo, tierThree]
  refine ⟨by simp, by simp, by simp⟩

/-- C4: for any quota at or below zero the aggregate calculator returns the
zero result and the deal-attribution calculator returns the empty sequence,
whatever the bookings, tiers and (possibly non-empty) deals. -/
theorem quota_nonpos_degenerate (bookings quota : ℚ) (tiers : List PlanTier)
    (deals : List SalesforceOpportunity) (hq : quota ≤ 0) :
    calculateTieredCommission bookings quota tiers =
      { grossCommission := 0, tierBreakdown := [], attainmentPercent := 0 } ∧
    calculateDealByDealCommission deals quota tiers = [] := by
  constructor
  · rw [calculateTieredCommission, if_pos hq]
  · rw [calculateDealByDealCommission, if_pos (Or.inl hq)]

/-- C4 witness: quota 0 with positive bookings and a non-empty deal list. -/
theorem quota_nonpos_degenerate_witness :
    calculateTieredCommission 7 0 [tierOne] =
      { grossCommission := 0, tierBreakdown := [], attainmentPercent := 0 } ∧
    calculateDealByDealCommission [dealA] 0 [tierOne] = [] :=
  quota_nonpos_degenerate 7 0 [tierOne] [dealA] le_rfl

/-- C8: both calculators operate on spread copies of the caller's arrays, so
after either call the caller's tier and deal lists are unchanged, and the
tracked calls compute the same results as the plain ones. -/
theorem calculators_preserve_inputs (bookings quota : ℚ)
    (tiers : List PlanTier) (deals : List SalesforceOpportunity) :
    (calculateTieredCommissionTracked bookings quota tiers).2 = tiers ∧
    (calculateTieredCommissionTracked bookings quota tiers).1 =
      calculateTieredCommission bookings quota tiers ∧
    (calculateDealByDealCommissionTracked deals quota tiers).2.1 = deals ∧
    (calculateDealByDealCommissionTracked deals quota tiers).2.2 = tiers ∧
    (calculateDealByDealCommissionTracked deals quota tiers).1 =
      calculateDealByDealCommission deals quota tiers := by
  unfold calculateTieredCommissionTracked calculateTieredCommission
    calculateDealByDealCommissionTracked calculateDealByDealCommission
    copyThenSort
  by_cases hq : quota ≤ 0 <;> by_cases hd : deals = [] <;> simp [hq, hd]

/-- C2: with tier A carrying ceiling 100 and tier B carrying floor 100, a
running attainment of exactly 100 matches tier B, never tier A: the interval
`[floor, ceiling)` excludes the ceiling, whatever the remaining fields of the
two tiers are. -/
theorem boundary_attainment_matches_upper_tier (idA nA : String) (fA rA : ℚ)
    (idB nB : String) (cB : Option ℚ) (rB : ℚ) :
    findTierForAttainment 100
        [{ Id := idA, Name := nA, Attainment_Floor__c := fA,
           Attainment_Ceiling__c := some 100, Commission_Rate__c := rA },
         { Id := idB, Name := nB, Attainment_Floor__c := 100,
           Attainment_Ceiling__c := cB, Commission_Rate__c := rB }] =
      some { Id := idB, Name := nB, Attainment_Floor__c := 100,
             Attainment_Ceiling__c := cB, Commission_Rate__c := rB } := by
  have hA : belowCeiling 100
      { Id := idA, Name := nA, Attainment_Floor__c := fA,
        Attainment_Ceiling__c := some 100, Commission_Rate__c := rA } = false := by
    norm_num [belowCeiling, effCeiling]
  have key : ∀ best, findTierAux 100 best
      [{ Id := idB, Name := nB, Attainment_Floor__c := 100,
         Attainment_Ceiling__c := cB, Commission_Rate__c := rB }] =
      some { Id := idB, Name := nB, Attainment_Floor__c := 100,
             Attainment_Ceiling__c := cB, Commission_Rate__c := rB } := by
    intro best
    cases h : belowCeiling 100
        { Id := idB, Name := nB, Attainment_Floor__c := 100,
          Attainment_Ceiling__c := cB, Commission_Rate__c := rB } <;>
      simp [findTierAux, h]
  by_cases hfA : fA ≤ 100 <;>
    simp [findTierForAttainment, findTierAux, hfA, hA, key]

/-- C5 counterexample: `cap = 0` is a present ceiling, the quota 100 is
positive, yet the computed ceiling amount is `Infinity` (`none`), not
`(0 / 100) * 100`: the falsy test sends a zero ceiling to the unbounded
branch. -/
theorem zero_ceiling_amount_counterexample :
    zeroCeilTier.Attainment_Ceiling__c = some 0 ∧ (0 : ℚ) < 100 ∧
    tierCeilingAmount 100 zeroCeilTier ≠ some (0 / 100 * 100) ∧
    tierCeilingAmount 100 zeroCeilTier = none := by
  refine ⟨rfl, by norm_num, ?_, ?_⟩ <;> simp [tierCeilingAmount, zeroCeilTier]

/-- C5 amended: for every quota, a tier's ceiling amount is
`(ceilingPercent / 100) * quota` when the ceiling is present and nonzero, and
is `+Infinity` (`none`) exactly when the ceiling is missing or zero. -/
theorem ceiling_amount_formula (quota : ℚ) (tier : PlanTier) :
    (∀ c : ℚ, tier.Attainment_Ceiling__c = some c → c ≠ 0 →
        tierCeilingAmount quota tier = some (c / 100 * quota)) ∧
    ((tier.Attainment_Ceiling__c = none ∨ tier.Attainment_Ceiling__c = some 0) →
        tierCeilingAmount quota tier = none) := by
  constructor
  · intro c hc h0
    simp [tierCeilingAmount, hc, h0]
  · rintro (hc | hc) <;> simp [tierCeilingAmount, hc]

/-- C5 amended witness: a finite nonzero ceiling of 50% against quota 200
yields 100; a present-but-zero ceiling yields `Infinity`. -/
theorem ceiling_amount_formula_witness :
    tierCeilingAmount 200 cap50Tier = some (50 / 100 * 200) ∧
    tierCeilingAmount 200 zeroCeilTier = none :=
  ⟨(ceiling_amount_formula 200 cap50Tier).1 50 rfl (by norm_num),
   (ceiling_amount_formula 200 zeroCeilTier).2 (Or.inr rfl)⟩

/-- C6 counterexample: bookings 0 satisfies `B ≥ 0` and quota 100 is positive,
yet the single flat tier produces an empty breakdown, not exactly one entry:
entries are appended only for strictly positive `bookingsInTier`. -/
theorem flat_tier_zero_bookings_counterexample :
    (0 : ℚ) ≤ 0 ∧ (0 : ℚ) < 100 ∧
    (calculateTieredCommission 0 100 [flatTier "tf" "Flat" 10]).tierBreakdown.length ≠ 1 ∧
    calculateTieredCommission 0 100 [flatTier "tf" "Flat" 10] =
      { grossCommission := 0, tierBreakdown := [], attainmentPercent := 0 } := by
  refine ⟨le_rfl, by norm_num, ?_, ?_⟩ <;>
    norm_num [calculateTieredCommission, sortTiersByFloor, List.insertionSort,
      List.orderedInsert, tieredStep, tierCeilingAmount, flatTier]

/-- C6 amended: for strictly positive bookings B, positive quota Q and any
rate R, the single flat tier {floor 0, ceiling unbounded, rate R} yields gross
commission `B * R / 100`, attainment `B / Q * 100`, and exactly one breakdown
entry. -/
theorem flat_tier_formula (B Q R : ℚ) (id nm : String) (hB : 0 < B)
    (hQ : 0 < Q) :
    (calculateTieredCommission B Q [flatTier id nm R]).grossCommission =
      B * R / 100 ∧
    (calculateTieredCommission B Q [flatTier id nm R]).attainmentPercent =
      B / Q * 100 ∧
    (calculateTieredCommission B Q [flatTier id nm R]).tierBreakdown.length = 1 := by
  have hQ' : ¬ Q ≤ 0 := not_le.mpr hQ
  have hmax : max (B - 0 / 100 * Q) 0 = B := by
    rw [zero_div, zero_mul, sub_zero]
    exact max_eq_left hB.le
  simp only [calculateTieredCommission, sortTiersByFloor, List.insertionSort,
    List.orderedInsert, tieredStep, tierCeilingAmount, flatTier, hQ',
    if_false, List.foldl_cons, List.foldl_nil, hmax, hB, if_true]
  norm_num [hB]
  ring

/-- C6 amended witness: bookings 50, quota 200, rate 10. -/
theorem flat_tier_formula_witness :
    (calculateTieredCommission 50 200 [flatTier "tf" "Flat" 10]).grossCommission =
      50 * 10 / 100 ∧
    (calculateTieredCommission 50 200 [flatTier "tf" "Flat" 10]).attainmentPercent =
      50 / 200 * 100 ∧
    (calculateTieredCommission 50 200 [flatTier "tf" "Flat" 10]).tierBreakdown.length = 1 :=
  flat_tier_formula 50 200 10 "tf" "Flat" (by norm_num) (by norm_num)

/-- C10: a tier whose ceiling field is present but equal to 0 behaves in the
tier-matching rule exactly like an uncapped tier: its effective ceiling is
`Infinity` (`none`), it exact-contains every attainment at or above its floor
and stops the scan there, and below its floor it contributes nothing to the
scan. -/
theorem zero_ceiling_acts_uncapped (a : ℚ) (tier : PlanTier)
    (rest : List PlanTier) (hc : tier.Attainment_Ceiling__c = some 0) :
    effCeiling tier = none ∧
    (tier.Attainment_Floor__c ≤ a →
       exactContains a tier ∧
       findTierForAttainment a (tier :: rest) = some tier) ∧
    (a < tier.Attainment_Floor__c →
       findTierForAttainment a (tier :: rest) = findTierForAttainment a rest) := by
  have he : effCeiling tier = none := by simp [effCeiling, hc]
  have hb : belowCeiling a tier = true := by simp [belowCeiling, he]
  refine ⟨he, fun hf => ⟨⟨hf, hb⟩, ?_⟩, fun hlt => ?_⟩
  · rw [findTierForAttainment, findTierAux, if_pos hf, hb, if_pos rfl]
  · rw [findTierForAttainment, findTierAux, if_neg (not_le.mpr hlt),
      findTierForAttainment]

/-- C10 witness: attainment 42 is at or above the floor 0 of the zero-ceiling
tier, which exact-matches it and stops the scan ahead of the later tier. -/
theorem zero_ceiling_acts_uncapped_witness :
    effCeiling zeroCeilTier = none ∧
    exactContains 42 zeroCeilTier ∧
    findTierForAttainment 42 [zeroCeilTier, midTier] = some zeroCeilTier :=
  ⟨(zero_ceiling_acts_uncapped 42 zeroCeilTier [midTier] rfl).1,
   ((zero_ceiling_acts_uncapped 42 zeroCeilTier [midTier] rfl).2.1 (by norm_num [zeroCeilTier])).1,
   ((zero_ceiling_acts_uncapped 42 zeroCeilTier [midTier] rfl).2.1 (by norm_num [zeroCeilTier])).2⟩

/-- C3: on a floor-sorted tier list on which no tier exactly contains the
attainment `att` but at least one tier's floor is at or below it, the matching
rule does return a tier, and that tier's floor is at or below `att` and
greatest among the scanned floors at or below `att`; and at a (deal) attainment
that lies below every tier floor the rule returns no tier, so the deal record
built there gets commission rate 0 and the sentinel tier name "Base". -/
theorem tier_matching_fallback (att quota running : ℚ)
    (d : SalesforceOpportunity) (tiers : List PlanTier)
    (hs : List.Pairwise tierLE tiers)
    (hne : ∀ t ∈ tiers, ¬ exactContains att t)
    (hq : ∃ t ∈ tiers, t.Attainment_Floor__c ≤ att)
    (hno : ∀ t ∈ tiers, ¬ t.Attainment_Floor__c ≤ (running + d.Amount) / quota * 100) :
    (∃ r, findTierForAttainment att tiers = some r ∧
       r ∈ tiers ∧ r.Attainment_Floor__c ≤ att ∧
       ∀ t ∈ tiers, t.Attainment_Floor__c ≤ att →
         t.Attainment_Floor__c ≤ r.Attainment_Floor__c) ∧
    findTierForAttainment ((running + d.Amount) / quota * 100) tiers = none ∧
    (mkDealCommission quota tiers running d).commissionRate = 0 ∧
    (mkDealCommission quota tiers running d).tierApplied = "Base" := by
  have hnone : findTierForAttainment ((running + d.Amount) / quota * 100) tiers = none := by
    rw [findTierForAttainment]
    exact findTierAux_of_no_floor _ tiers none hno
  refine ⟨?_, hnone, ?_⟩
  · have hspec := findTierAux_spec att tiers none hs hne (fun b hb => nomatch hb)
    revert hspec
    rw [findTierForAttainment]
    cases hr : findTierAux att none tiers with
    | none =>
      rintro ⟨-, hallno⟩
      obtain ⟨t0, ht0, hf0⟩ := hq
      exact absurd hf0 (hallno t0 ht0)
    | some r =>
      rintro ⟨h1, h2, h3⟩
      rcases h1 with h1 | h1
      · exact nomatch h1
      · exact ⟨r, rfl, h1, h2, h3⟩
  · constructor <;> simp [mkDealCommission, hnone]

/-- C3 witness: attainment 55 falls in the gap between a tier capped at 50 and
a tier with floor 60, and no tier exactly contains it; the fallback returns
the capped tier, whose floor 0 is the greatest floor at or below 55. A refund
deal drives the running attainment to -30, below every floor, so its record
gets rate 0 and the name "Base". -/
theorem tier_matching_fallback_witness :
    (∃ r, findTierForAttainment 55 [cap50Tier, midTier] = some r ∧
       r ∈ [cap50Tier, midTier] ∧ r.Attainment_Floor__c ≤ 55 ∧
       ∀ t ∈ [cap50Tier, midTier], t.Attainment_Floor__c ≤ 55 →
         t.Attainment_Floor__c ≤ r.Attainment_Floor__c) ∧
    findTierForAttainment ((0 + refundDeal.Amount) / 100 * 100)
        [cap50Tier, midTier] = none ∧
    (mkDealCommission 100 [cap50Tier, midTier] 0 refundDeal).commissionRate = 0 ∧
    (mkDealCommission 100 [cap50Tier, midTier] 0 refundDeal).tierApplied = "Base" :=
  tier_matching_fallback 55 100 0 refundDeal [cap50Tier, midTier]
    (by norm_num [List.pairwise_cons, tierLE, cap50Tier, midTier])
    (by
      intro t ht
      simp only [List.mem_cons, List.not_mem_nil, or_false] at ht
      rcases ht with rfl | rfl
      · norm_num [exactContains, belowCeiling, effCeiling, cap50Tier]
      · norm_num [exactContains, belowCeiling, effCeiling, midTier])
    ⟨cap50Tier, by simp, by norm_num [cap50Tier]⟩
    (by
      intro t ht
      simp only [List.mem_cons, List.not_mem_nil, or_false] at ht
      rcases ht with rfl | rfl
      · norm_num [cap50Tier, refundDeal]
      · norm_num [midTier, refundDeal])

/-- C7: for positive quota, the attribution output follows the stable
close-date sort of the input deals record for record (witnessed by the
opportunity ids), that sorted list is ascending by close date, and for each
fixed close time it lists the tying deals in their original relative input
order. -/
theorem attribution_sorted_stable (quota : ℚ)
    (deals : List SalesforceOpportunity) (tiers : List PlanTier)
    (hq : 0 < quota) :
    (calculateDealByDealCommission deals quota tiers).map
        (fun r => r.opportunityId) =
      (sortDealsByCloseDate deals).map (fun d => d.Id) ∧
    List.Sorted dealLE (sortDealsByCloseDate deals) ∧
    (∀ ts : ℤ, (sortDealsByCloseDate deals).filter
        (fun d => decide (d.CloseDate = ts)) =
      deals.filter (fun d => decide (d.CloseDate = ts))) := by
  refine ⟨?_, List.sorted_insertionSort dealLE deals,
    fun ts => filter_closeDate_insertionSort deals ts⟩
  rw [calculateDealByDealCommission]
  by_cases hd : deals = []
  · simp [hd, sortDealsByCloseDate, List.insertionSort]
  · rw [if_neg (by simp [not_le.mpr hq, hd])]
    exact dealLoop_map_opportunityId quota (sortTiersByFloor tiers)
      (sortDealsByCloseDate deals) 0

/-- C7 witness: three deals arriving out of date order, two of them tying at
close time 300 in the order `dealA` before `dealC`. -/
theorem attribution_sorted_stable_witness :
    (calculateDealByDealCommission [dealA, dealB, dealC] 100 [tierOne]).map
        (fun r => r.opportunityId) =
      (sortDealsByCloseDate [dealA, dealB, dealC]).map (fun d => d.Id) ∧
    List.Sorted dealLE (sortDealsByCloseDate [dealA, dealB, dealC]) ∧
    (∀ ts : ℤ, (sortDealsByCloseDate [dealA, dealB, dealC]).filter
        (fun d => decide (d.CloseDate = ts)) =
      [dealA, dealB, dealC].filter (fun d => decide (d.CloseDate = ts))) :=
  attribution_sorted_stable 100 [dealA, dealB, dealC] [tierOne] (by norm_num)

/-- C9: for positive quota and nonnegative deal amounts, the `runningBookings`
fields of the emitted records are monotonically non-decreasing across the
output sequence. -/
theorem running_bookings_monotone (quota : ℚ)
    (deals : List SalesforceOpportunity) (tiers : List PlanTier)
    (hq : 0 < quota) (hamt : ∀ d ∈ deals, 0 ≤ d.Amount) :
    List.Chain' (· ≤ ·)
      ((calculateDealByDealCommission deals quota tiers).map
        (fun r => r.runningBookings)) := by
  rw [calculateDealByDealCommission]
  by_cases hd : deals = []
  · simp [hd]
  · rw [if_neg (by simp [not_le.mpr hq, hd])]
    have hamt' : ∀ d ∈ sortDealsByCloseDate deals, 0 ≤ d.Amount := fun d hdm =>
      hamt d ((List.perm_insertionSort dealLE deals).subset hdm)
    exact (dealLoop_running_chain quota (sortTiersByFloor tiers)
      (sortDealsByCloseDate deals) 0 hamt').tail

/-- C9 witness: two deals of amounts 40 and 25 against quota 100; the emitted
running totals 25, 65 are non-decreasing. -/
theorem running_bookings_monotone_witness :
    List.Chain' (· ≤ ·)
      ((calculateDealByDealCommission [dealA, dealB] 100 [tierOne]).map
        (fun r => r.runningBookings)) :=
  running_bookings_monotone 100 [dealA, dealB] [tierOne] (by norm_num)
    (by
      intro d hd
      simp only [List.mem_cons, List.not_mem_nil, or_false] at hd
      rcases hd with rfl | rfl <;> norm_num [dealA, dealB])
